import Mathlib

/-!
Shallow embedding of the freepik-mcp tool server (src/src/index.ts, the
full 23-tool variant, and src/unnamed/part_000, the reduced 2-tool
variant).

The server is a stateless protocol adapter: each tool call is dispatched
by name to a handler, the handler builds one HTTP request against the
upstream API, and the JSON response is rendered into a single markdown
text block.  The embedding mirrors this pipeline:

* caller arguments are modelled per tool as a structure of `Option`
  fields of the schema-declared types (`none` models a JavaScript
  `undefined`, i.e. an absent argument);
* JavaScript numbers are modelled as `Int` (every value the claims
  exercise is integral); JS truthiness on the embedded types is
  `s = ""` for strings and `n = 0` for numbers;
* the network is an oracle `HttpOracle`: a function from the built
  request to `Except String UpstreamData`, whose `error` branch models
  an axios throw (network failure, non-2xx status) and whose payloads of
  an unexpected shape model a JSON document the handler cannot
  destructure (the resulting TypeError is an `error` as well);
* each handler returns `Except String ToolCallResult`; the dispatcher
  `callTool` catches the `error` branch and converts it into the
  uniform text reply, exactly like the try/catch around the switch in
  setupToolHandlers.
-/

/-- One content block of a tool reply; the source only ever produces
blocks with type "text". -/
structure TextContent where
  type : String
  text : String
  deriving Repr, DecidableEq

/-- The reply shape of a tool call, mirroring the object literals
returned by every handler and by the dispatcher catch block. -/
structure ToolCallResult where
  content : List TextContent
  deriving Repr, DecidableEq

/-- Builds the single-text-block reply every handler returns. -/
def textResult (s : String) : ToolCallResult :=
  { content := [{ type := "text", text := s }] }

/-- Process-wide configuration captured at startup: the api key from
FREEPIK_API_KEY and the constant base url. -/
structure ProcessConfig where
  apiKey : String
  baseUrl : String := "https://api.freepik.com/v1"
  deriving Repr, DecidableEq

/-- Uppercase hexadecimal digit for a value below 16. -/
def hexDigit (n : Nat) : Char :=
  if n < 10 then Char.ofNat (48 + n) else Char.ofNat (55 + n)

/-- UTF-8 byte sequence of a character, as natural numbers below 256. -/
def utf8Bytes (c : Char) : List Nat :=
  let n := c.toNat
  if n < 128 then [n]
  else if n < 2048 then [192 + n / 64, 128 + n % 64]
  else if n < 65536 then [224 + n / 4096, 128 + (n / 64) % 64, 128 + n % 64]
  else [240 + n / 262144, 128 + (n / 4096) % 64, 128 + (n / 64) % 64, 128 + n % 64]

/-- Percent-encoding of one byte: a percent sign followed by two
uppercase hex digits. -/
def percentByte (b : Nat) : String :=
  "%" ++ String.singleton (hexDigit (b / 16)) ++ String.singleton (hexDigit (b % 16))

/-- Characters left unescaped by JavaScript encodeURIComponent:
A-Z, a-z, 0-9 and - _ . ! ~ * and the apostrophe and the two round
parentheses (codes 45, 95, 46, 33, 126, 42, 39, 40, 41). -/
def isUnreservedURI (c : Char) : Bool :=
  (65 ≤ c.toNat && c.toNat ≤ 90) || (97 ≤ c.toNat && c.toNat ≤ 122) ||
  (48 ≤ c.toNat && c.toNat ≤ 57) ||
  c.toNat == 45 || c.toNat == 95 || c.toNat == 46 || c.toNat == 33 ||
  c.toNat == 126 || c.toNat == 42 || c.toNat == 39 || c.toNat == 40 || c.toNat == 41

/-- JavaScript encodeURIComponent: unreserved characters are kept,
every other character is written as the percent-encoded bytes of its
UTF-8 encoding. -/
def encodeURIComponent (s : String) : String :=
  String.join (s.data.map fun c =>
    if isUnreservedURI c then String.singleton c
    else String.join ((utf8Bytes c).map percentByte))

/-- Characters left unescaped by the URLSearchParams
application/x-www-form-urlencoded serializer: A-Z, a-z, 0-9 and
* - . _ (codes 42, 45, 46, 95). -/
def isFormUnreserved (c : Char) : Bool :=
  (65 ≤ c.toNat && c.toNat ≤ 90) || (97 ≤ c.toNat && c.toNat ≤ 122) ||
  (48 ≤ c.toNat && c.toNat ≤ 57) ||
  c.toNat == 42 || c.toNat == 45 || c.toNat == 46 || c.toNat == 95

/-- URLSearchParams serialization of one string: unreserved characters
kept, a space becomes a plus sign, everything else is percent-encoded
per UTF-8 byte. -/
def formEncode (s : String) : String :=
  String.join (s.data.map fun c =>
    if isFormUnreserved c then String.singleton c
    else if c.toNat == 32 then "+"
    else String.join ((utf8Bytes c).map percentByte))

/-- URLSearchParams.toString(): key=value pairs joined by ampersands,
keys and values form-encoded, in append order. -/
def renderQuery (ps : List (String × String)) : String :=
  String.intercalate "&" (ps.map fun p => formEncode p.1 ++ "=" ++ formEncode p.2)

/-- First value appended for a key in a query-parameter list, `none`
when the key was never appended. -/
def queryLookup (k : String) : List (String × String) → Option String
  | [] => none
  | (k', v) :: rest => if k' = k then some v else queryLookup k rest

/-- The value a JavaScript template literal renders for a possibly
undefined string: the string itself, or "undefined". -/
def jsShow (v : Option String) : String :=
  v.getD "undefined"

/-- The value a JavaScript template literal renders for a possibly
undefined number. -/
def jsShowInt (v : Option Int) : String :=
  match v with
  | some n => toString n
  | none => "undefined"

/-- JavaScript truthiness filter on an optional string: an absent or
empty string is falsy and is dropped. -/
def truthyStr : Option String → Option String
  | some s => if s = "" then none else some s
  | none => none

/-- JavaScript truthiness filter on an optional number: an absent or
zero value is falsy and is dropped. -/
def truthyInt : Option Int → Option Int
  | some n => if n = 0 then none else some n
  | none => none

/-- JavaScript `v || d` for strings: the value when truthy, else the
fallback. -/
def jsOr (v : Option String) (d : String) : String :=
  match v with
  | some s => if s = "" then d else s
  | none => d

/-- The query-parameter block produced by `if (x) params.append(k, x)`
for a string argument destructured without a default. -/
def strOptParam (k : String) (v : Option String) : List (String × String) :=
  match v with
  | some s => if s = "" then [] else [(k, s)]
  | none => []

/-- The query-parameter block produced by
`if (x !== undefined) params.append(k, x.toString())` for a boolean
argument. -/
def boolOptParam (k : String) (v : Option Bool) : List (String × String) :=
  match v with
  | some b => [(k, toString b)]
  | none => []

/-- Renders a url list as the numbered lines the task formatters build
with `.map((url, index) => ...)` joined by newlines. -/
def numberedList (urls : List String) : String :=
  String.intercalate "\n" (urls.enum.map fun p => toString (p.1 + 1) ++ ". " ++ p.2)

/-- Inner url holder of a resource image, mirroring image.source.url. -/
structure SourceUrl where
  url : String
  deriving Repr, DecidableEq

/-- Image object of a resource. -/
structure ImageObj where
  source : SourceUrl
  deriving Repr, DecidableEq

/-- Author object of a resource or icon. -/
structure Author where
  username : String
  deriving Repr, DecidableEq

/-- A stock resource as returned by the upstream API (interface
FreepikResource). -/
structure FreepikResource where
  id : String
  title : String
  url : String
  image : ImageObj
  author : Author
  license : String
  deriving Repr, DecidableEq

/-- Pagination meta of the resource search response (full variant). -/
structure ResourceMeta where
  current_page : Int
  per_page : Int
  last_page : Int
  total : Int
  clean_search : Bool
  deriving Repr, DecidableEq

/-- Resource search response (interface FreepikResponse, full
variant). -/
structure FreepikResponse where
  data : List FreepikResource
  meta : ResourceMeta
  deriving Repr, DecidableEq

/-- Thumbnail urls of an icon. -/
structure IconThumbnails where
  png : String
  svg : String
  deriving Repr, DecidableEq

/-- Icon family object. -/
structure IconFamily where
  id : Int
  name : String
  deriving Repr, DecidableEq

/-- An icon as returned by the upstream API (interface FreepikIcon). -/
structure FreepikIcon where
  id : Int
  name : String
  thumbnails : IconThumbnails
  author : Author
  tags : List String
  family : IconFamily
  deriving Repr, DecidableEq

/-- Pagination meta of the icon search response. -/
structure IconPagination where
  current_page : Int
  per_page : Int
  last_page : Int
  total : Int
  deriving Repr, DecidableEq

/-- Icon meta wrapper. -/
structure IconMeta where
  pagination : IconPagination
  deriving Repr, DecidableEq

/-- Icon search response (interface FreepikIconResponse). -/
structure FreepikIconResponse where
  data : List FreepikIcon
  meta : IconMeta
  deriving Repr, DecidableEq

/-- Payload of a download response. -/
structure DownloadData where
  filename : String
  url : String
  deriving Repr, DecidableEq

/-- Download response (interface FreepikDownloadResponse). -/
structure FreepikDownloadResponse where
  data : DownloadData
  deriving Repr, DecidableEq

/-- Icon generation response (interface
FreepikIconGenerationResponse). -/
structure FreepikIconGenerationResponse where
  task_id : String
  task_status : String
  generated : Option (List String) := none
  deriving Repr, DecidableEq

/-- Payload of an AI task response (the data field of interface
FreepikAITaskResponse). -/
structure AITaskData where
  task_id : String
  status : String
  generated : Option (List String) := none
  has_nsfw : Option Bool := none
  deriving Repr, DecidableEq

/-- AI task response wrapper (interface FreepikAITaskResponse). -/
structure FreepikAITaskResponse where
  data : AITaskData
  deriving Repr, DecidableEq

/-- One entry of an AI task listing. -/
structure AITaskListItem where
  task_id : String
  status : String
  deriving Repr, DecidableEq

/-- AI task list response (interface FreepikAITasksResponse). -/
structure FreepikAITasksResponse where
  data : List AITaskListItem
  deriving Repr, DecidableEq

/-- Background removal response (interface
FreepikRemoveBackgroundResponse): exactly four url fields. -/
structure FreepikRemoveBackgroundResponse where
  original : String
  high_resolution : String
  preview : String
  url : String
  deriving Repr, DecidableEq

/-- JSON body of the icon generation endpoints (interface
FreepikIconGenerationRequest; the preview endpoint leaves format
unset). -/
structure FreepikIconGenerationRequest where
  prompt : Option String := none
  webhook_url : Option String := none
  format : Option String := none
  style : Option String := none
  num_inference_steps : Option Int := none
  guidance_scale : Option Int := none
  deriving Repr, DecidableEq

/-- JSON body of the mystic endpoint (interface FreepikMysticRequest). -/
structure FreepikMysticRequest where
  prompt : Option String := none
  webhook_url : Option String := none
  structure_reference : Option String := none
  style_reference : Option String := none
  resolution : Option String := none
  aspect_ratio : Option String := none
  model : Option String := none
  deriving Repr, DecidableEq

/-- Styling object of the flux-dev endpoint. -/
structure FluxStyling where
  effects : Option (List String) := none
  color : Option String := none
  deriving Repr, DecidableEq

/-- JSON body of the flux-dev endpoint (interface
FreepikFluxDevRequest). -/
structure FreepikFluxDevRequest where
  prompt : Option String := none
  webhook_url : Option String := none
  aspect_ratio : Option String := none
  styling : Option FluxStyling := none
  seed : Option Int := none
  deriving Repr, DecidableEq

/-- JSON body of the reimagine-flux endpoint (interface
FreepikReimagineFluxRequest). -/
structure FreepikReimagineFluxRequest where
  image : Option String := none
  prompt : Option String := none
  webhook_url : Option String := none
  imagination : Option String := none
  aspect_ratio : Option String := none
  deriving Repr, DecidableEq

/-- JSON body of the image-upscaler endpoint (interface
FreepikImageUpscalerRequest). -/
structure FreepikImageUpscalerRequest where
  image : Option String := none
  webhook_url : Option String := none
  scale_factor : Option String := none
  optimized_for : Option String := none
  prompt : Option String := none
  creativity : Option Int := none
  hdr : Option Int := none
  resemblance : Option Int := none
  fractality : Option Int := none
  engine : Option String := none
  deriving Repr, DecidableEq

/-- JSON body of the image-expand endpoint (interface
FreepikImageExpandRequest). -/
structure FreepikImageExpandRequest where
  image : Option String := none
  prompt : Option String := none
  left : Option Int := none
  right : Option Int := none
  top : Option Int := none
  bottom : Option Int := none
  webhook_url : Option String := none
  deriving Repr, DecidableEq

/-- Request body of an upstream call: absent for GET requests, a typed
JSON document for the POST endpoints, the literal empty JSON object for
render_generated_icon, or a url-encoded form string for
remove_background. -/
inductive RequestBody where
  | noBody
  | emptyJson
  | iconGen (r : FreepikIconGenerationRequest)
  | mystic (r : FreepikMysticRequest)
  | fluxDev (r : FreepikFluxDevRequest)
  | reimagine (r : FreepikReimagineFluxRequest)
  | upscaler (r : FreepikImageUpscalerRequest)
  | expand (r : FreepikImageExpandRequest)
  | form (s : String)
  deriving Repr, DecidableEq

/-- One upstream HTTP request as a handler builds it. -/
structure HttpRequest where
  method : String
  url : String
  body : RequestBody
  headers : List (String × String)
  deriving Repr, DecidableEq

/-- A decoded upstream JSON payload, one constructor per response shape
the handlers destructure. -/
inductive UpstreamData where
  | resources (r : FreepikResponse)
  | icons (r : FreepikIconResponse)
  | download (r : FreepikDownloadResponse)
  | iconGen (r : FreepikIconGenerationResponse)
  | aiTask (r : FreepikAITaskResponse)
  | aiTasks (r : FreepikAITasksResponse)
  | removeBg (r : FreepikRemoveBackgroundResponse)
  | resource (r : FreepikResource)
  deriving Repr, DecidableEq

/-- The network oracle: what the single axios call of a handler does.
The error branch models a thrown failure (connection refused, non-2xx
response, malformed JSON). -/
def HttpOracle : Type :=
  HttpRequest → Except String UpstreamData

/-- Message of the TypeError raised when a handler destructures a
response of an unexpected shape. -/
def shapeError : String :=
  "Cannot read properties of undefined"

/-- Common shape of every handler: issue the one HTTP request, then
render the decoded payload into the single text block; any failure is
propagated to the dispatcher. -/
def runTool (http : HttpOracle) (req : HttpRequest)
    (render : UpstreamData → Except String String) : Except String ToolCallResult :=
  match http req with
  | Except.error e => Except.error e
  | Except.ok d =>
    match render d with
    | Except.error e => Except.error e
    | Except.ok s => Except.ok (textResult s)

/-- Headers of an authenticated GET request. -/
def authHeaders (cfg : ProcessConfig) : List (String × String) :=
  [("x-freepik-api-key", cfg.apiKey)]

/-- Headers of an authenticated JSON POST request. -/
def jsonHeaders (cfg : ProcessConfig) : List (String × String) :=
  [("x-freepik-api-key", cfg.apiKey), ("Content-Type", "application/json")]

/-- Caller arguments of search_resources (full variant); every field
optional, absent modelled as none. -/
structure SearchResourcesArgs where
  query : Option String := none
  page : Option Int := none
  limit : Option Int := none
  orientation : Option String := none
  order : Option String := none
  license : Option String := none
  content_type : Option String := none
  color : Option String := none
  people_age : Option String := none
  people_gender : Option String := none
  people_number : Option String := none
  people_ethnicity : Option String := none
  ai_generated : Option Bool := none
  deriving Repr, DecidableEq

/-- Query parameters built by searchResources (full variant): the term
is appended only when the query is truthy, page and limit always, the
limit clamped with Math.min(limit, 200), and each filter only when
truthy (ai_generated whenever defined). -/
def searchResourcesParams (a : SearchResourcesArgs) : List (String × String) :=
  let query := a.query.getD ""
  let page := a.page.getD 1
  let limit := a.limit.getD 20
  (if query = "" then [] else [("term", query)])
    ++ [("page", toString page), ("limit", toString (min limit 200))]
    ++ strOptParam "orientation" a.orientation
    ++ strOptParam "order" a.order
    ++ strOptParam "license" a.license
    ++ strOptParam "content_type" a.content_type
    ++ strOptParam "color" a.color
    ++ strOptParam "people_age" a.people_age
    ++ strOptParam "people_gender" a.people_gender
    ++ strOptParam "people_number" a.people_number
    ++ strOptParam "people_ethnicity" a.people_ethnicity
    ++ boolOptParam "ai_generated" a.ai_generated

/-- The GET /resources request searchResources issues. -/
def searchResourcesRequest (cfg : ProcessConfig) (a : SearchResourcesArgs) : HttpRequest :=
  { method := "GET"
    url := cfg.baseUrl ++ "/resources?" ++ renderQuery (searchResourcesParams a)
    body := RequestBody.noBody
    headers := authHeaders cfg }

/-- One bullet section of the resource search reply. -/
def formatResourceItem (r : FreepikResource) : String :=
  "**" ++ r.title ++ "**\n- ID: " ++ r.id ++ "\n- Author: " ++ r.author.username ++
  "\n- License: " ++ r.license ++ "\n- Image: " ++ r.image.source.url ++
  "\n- URL: " ++ r.url

/-- Text of the searchResources reply (full variant). -/
def formatSearchResources (resp : FreepikResponse) : String :=
  "Found " ++ toString resp.meta.total ++ " resources (showing page " ++
  toString resp.meta.current_page ++ " of " ++ toString resp.meta.last_page ++ "):\n\n" ++
  String.intercalate "\n\n" (resp.data.map formatResourceItem)

/-- Response mapping of searchResources. -/
def searchResourcesRender : UpstreamData → Except String String
  | UpstreamData.resources r => Except.ok (formatSearchResources r)
  | _ => Except.error shapeError

/-- Handler of the search_resources tool (full variant). -/
def searchResources (cfg : ProcessConfig) (http : HttpOracle)
    (a : SearchResourcesArgs) : Except String ToolCallResult :=
  runTool http (searchResourcesRequest cfg a) searchResourcesRender

/-- Caller arguments of search_icons. -/
structure SearchIconsArgs where
  term : Option String := none
  slug : Option String := none
  page : Option Int := none
  per_page : Option Int := none
  family_id : Option Int := none
  order : Option String := none
  color : Option String := none
  shape : Option String := none
  free_svg : Option Bool := none
  deriving Repr, DecidableEq

/-- Query parameters built by searchIcons; family_id is guarded by
truthiness of a number. -/
def searchIconsParams (a : SearchIconsArgs) : List (String × String) :=
  let page := a.page.getD 1
  let per_page := a.per_page.getD 20
  strOptParam "term" a.term
    ++ strOptParam "slug" a.slug
    ++ [("page", toString page), ("per_page", toString per_page)]
    ++ (match truthyInt a.family_id with
        | some n => [("family-id", toString n)]
        | none => [])
    ++ strOptParam "order" a.order
    ++ strOptParam "color" a.color
    ++ strOptParam "shape" a.shape
    ++ boolOptParam "free_svg" a.free_svg

/-- The GET /icons request searchIcons issues. -/
def searchIconsRequest (cfg : ProcessConfig) (a : SearchIconsArgs) : HttpRequest :=
  { method := "GET"
    url := cfg.baseUrl ++ "/icons?" ++ renderQuery (searchIconsParams a)
    body := RequestBody.noBody
    headers := authHeaders cfg }

/-- One bullet section of the icon search reply. -/
def formatIconItem (i : FreepikIcon) : String :=
  "**" ++ i.name ++ "**\n- ID: " ++ toString i.id ++ "\n- Author: " ++ i.author.username ++
  "\n- Family: " ++ i.family.name ++ "\n- Tags: " ++ String.intercalate ", " i.tags ++
  "\n- PNG: " ++ i.thumbnails.png ++ "\n- SVG: " ++ i.thumbnails.svg

/-- Text of the searchIcons reply. -/
def formatSearchIcons (resp : FreepikIconResponse) : String :=
  "Found " ++ toString resp.meta.pagination.total ++ " icons (showing page " ++
  toString resp.meta.pagination.current_page ++ " of " ++
  toString resp.meta.pagination.last_page ++ "):\n\n" ++
  String.intercalate "\n\n" (resp.data.map formatIconItem)

/-- Response mapping of searchIcons. -/
def searchIconsRender : UpstreamData → Except String String
  | UpstreamData.icons r => Except.ok (formatSearchIcons r)
  | _ => Except.error shapeError

/-- Handler of the search_icons tool. -/
def searchIcons (cfg : ProcessConfig) (http : HttpOracle)
    (a : SearchIconsArgs) : Except String ToolCallResult :=
  runTool http (searchIconsRequest cfg a) searchIconsRender

/-- Caller arguments of download_icon. -/
structure DownloadIconArgs where
  icon_id : Option Int := none
  format : Option String := none
  png_size : Option Int := none
  deriving Repr, DecidableEq

/-- Query parameters built by downloadIcon: format whenever truthy
(default "svg"), png_size only when the format is exactly "png" and
png_size is truthy (default 512). -/
def downloadIconParams (a : DownloadIconArgs) : List (String × String) :=
  let format := a.format.getD "svg"
  let png_size := a.png_size.getD 512
  (if format = "" then [] else [("format", format)])
    ++ (if format = "png" ∧ png_size ≠ 0 then [("png_size", toString png_size)] else [])

/-- The GET /icons/id/download request downloadIcon issues. -/
def downloadIconRequest (cfg : ProcessConfig) (a : DownloadIconArgs) : HttpRequest :=
  { method := "GET"
    url := cfg.baseUrl ++ "/icons/" ++ jsShowInt a.icon_id ++ "/download?" ++
      renderQuery (downloadIconParams a)
    body := RequestBody.noBody
    headers := authHeaders cfg }

/-- Text of the downloadIcon reply; reports the resolved format. -/
def formatDownloadIcon (a : DownloadIconArgs) (d : DownloadData) : String :=
  "**Icon Download Ready**\n\n- **Filename**: " ++ d.filename ++
  "\n- **Format**: " ++ a.format.getD "svg" ++ "\n- **Download URL**: " ++ d.url ++
  "\n\n*Note: Download URL is temporary and should be used immediately.*"

/-- Response mapping of downloadIcon. -/
def downloadIconRender (a : DownloadIconArgs) : UpstreamData → Except String String
  | UpstreamData.download r => Except.ok (formatDownloadIcon a r.data)
  | _ => Except.error shapeError

/-- Handler of the download_icon tool. -/
def downloadIcon (cfg : ProcessConfig) (http : HttpOracle)
    (a : DownloadIconArgs) : Except String ToolCallResult :=
  runTool http (downloadIconRequest cfg a) (downloadIconRender a)

/-- Caller arguments of download_resource. -/
structure DownloadResourceArgs where
  resource_id : Option String := none
  image_size : Option String := none
  deriving Repr, DecidableEq

/-- Query parameters built by downloadResource: image_size only when it
is truthy and differs from "original" (the default). -/
def downloadResourceParams (a : DownloadResourceArgs) : List (String × String) :=
  let image_size := a.image_size.getD "original"
  if image_size ≠ "" ∧ image_size ≠ "original" then [("image_size", image_size)] else []

/-- The GET /resources/id/download request downloadResource issues. -/
def downloadResourceRequest (cfg : ProcessConfig) (a : DownloadResourceArgs) : HttpRequest :=
  { method := "GET"
    url := cfg.baseUrl ++ "/resources/" ++ jsShow a.resource_id ++ "/download?" ++
      renderQuery (downloadResourceParams a)
    body := RequestBody.noBody
    headers := authHeaders cfg }

/-- Text of the downloadResource reply; always reports the resolved
image_size, including "original". -/
def formatDownloadResource (a : DownloadResourceArgs) (d : DownloadData) : String :=
  "**Resource Download Ready**\n\n- **Filename**: " ++ d.filename ++
  "\n- **Image Size**: " ++ a.image_size.getD "original" ++
  "\n- **Download URL**: " ++ d.url ++
  "\n\n*Note: Download URL is temporary and should be used immediately.*"

/-- Response mapping of downloadResource. -/
def downloadResourceRender (a : DownloadResourceArgs) : UpstreamData → Except String String
  | UpstreamData.download r => Except.ok (formatDownloadResource a r.data)
  | _ => Except.error shapeError

/-- Handler of the download_resource tool. -/
def downloadResource (cfg : ProcessConfig) (http : HttpOracle)
    (a : DownloadResourceArgs) : Except String ToolCallResult :=
  runTool http (downloadResourceRequest cfg a) (downloadResourceRender a)

/-- Caller arguments of download_resource_format. -/
structure DownloadResourceFormatArgs where
  resource_id : Option String := none
  format : Option String := none
  deriving Repr, DecidableEq

/-- The GET /resources/id/download/format request
downloadResourceFormat issues (no query string). -/
def downloadResourceFormatRequest (cfg : ProcessConfig)
    (a : DownloadResourceFormatArgs) : HttpRequest :=
  { method := "GET"
    url := cfg.baseUrl ++ "/resources/" ++ jsShow a.resource_id ++ "/download/" ++
      jsShow a.format
    body := RequestBody.noBody
    headers := authHeaders cfg }

/-- Text of the downloadResourceFormat reply. -/
def formatDownloadResourceFormat (a : DownloadResourceFormatArgs) (d : DownloadData) : String :=
  "**Resource Download Ready**\n\n- **Filename**: " ++ d.filename ++
  "\n- **Format**: " ++ jsShow a.format ++ "\n- **Download URL**: " ++ d.url ++
  "\n\n*Note: Download URL is temporary and should be used immediately.*"

/-- Response mapping of downloadResourceFormat. -/
def downloadResourceFormatRender (a : DownloadResourceFormatArgs) :
    UpstreamData → Except String String
  | UpstreamData.download r => Except.ok (formatDownloadResourceFormat a r.data)
  | _ => Except.error shapeError

/-- Handler of the download_resource_format tool. -/
def downloadResourceFormat (cfg : ProcessConfig) (http : HttpOracle)
    (a : DownloadResourceFormatArgs) : Except String ToolCallResult :=
  runTool http (downloadResourceFormatRequest cfg a) (downloadResourceFormatRender a)

/-- Truthiness of an optional url list, mirroring
`generated && generated.length > 0`. -/
def hasUrls : Option (List String) → Bool
  | some l => decide (0 < l.length)
  | none => false

/-- Caller arguments of generate_icon. -/
structure GenerateIconArgs where
  prompt : Option String := none
  webhook_url : Option String := none
  format : Option String := none
  style : Option String := none
  num_inference_steps : Option Int := none
  guidance_scale : Option Int := none
  deriving Repr, DecidableEq

/-- JSON body built by generateIcon: prompt and webhook_url always
carried, format resolved to the default "png" and then appended when
truthy, and style, num_inference_steps and guidance_scale appended only
when truthy (so a zero number is dropped). -/
def generateIconBody (a : GenerateIconArgs) : FreepikIconGenerationRequest :=
  { prompt := a.prompt
    webhook_url := a.webhook_url
    format := truthyStr (some (a.format.getD "png"))
    style := truthyStr a.style
    num_inference_steps := truthyInt a.num_inference_steps
    guidance_scale := truthyInt a.guidance_scale }

/-- The POST /ai/text-to-icon request generateIcon issues. -/
def generateIconRequest (cfg : ProcessConfig) (a : GenerateIconArgs) : HttpRequest :=
  { method := "POST"
    url := cfg.baseUrl ++ "/ai/text-to-icon"
    body := RequestBody.iconGen (generateIconBody a)
    headers := jsonHeaders cfg }

/-- Text of the generateIcon reply. -/
def formatGenerateIcon (a : GenerateIconArgs) (t : FreepikIconGenerationResponse) : String :=
  "**AI Icon Generation Started**\n\n- **Task ID**: " ++ t.task_id ++
  "\n- **Status**: " ++ t.task_status ++ "\n- **Prompt**: " ++ jsShow a.prompt ++
  "\n- **Format**: " ++ a.format.getD "png" ++
  "\n- **Webhook URL**: " ++ jsShow a.webhook_url ++
  "\n\n*The generation is running. Results will be sent to your webhook URL when complete. Use the task ID to check status or download the icon.*"

/-- Response mapping of generateIcon. -/
def generateIconRender (a : GenerateIconArgs) : UpstreamData → Except String String
  | UpstreamData.iconGen r => Except.ok (formatGenerateIcon a r)
  | _ => Except.error shapeError

/-- Handler of the generate_icon tool. -/
def generateIcon (cfg : ProcessConfig) (http : HttpOracle)
    (a : GenerateIconArgs) : Except String ToolCallResult :=
  runTool http (generateIconRequest cfg a) (generateIconRender a)

/-- Caller arguments of generate_icon_preview. -/
structure GenerateIconPreviewArgs where
  prompt : Option String := none
  webhook_url : Option String := none
  style : Option String := none
  num_inference_steps : Option Int := none
  guidance_scale : Option Int := none
  deriving Repr, DecidableEq

/-- JSON body built by generateIconPreview (no format field). -/
def generateIconPreviewBody (a : GenerateIconPreviewArgs) : FreepikIconGenerationRequest :=
  { prompt := a.prompt
    webhook_url := a.webhook_url
    style := truthyStr a.style
    num_inference_steps := truthyInt a.num_inference_steps
    guidance_scale := truthyInt a.guidance_scale }

/-- The POST /ai/text-to-icon/preview request generateIconPreview
issues. -/
def generateIconPreviewRequest (cfg : ProcessConfig)
    (a : GenerateIconPreviewArgs) : HttpRequest :=
  { method := "POST"
    url := cfg.baseUrl ++ "/ai/text-to-icon/preview"
    body := RequestBody.iconGen (generateIconPreviewBody a)
    headers := jsonHeaders cfg }

/-- Text of the generateIconPreview reply. -/
def formatGenerateIconPreview (a : GenerateIconPreviewArgs)
    (t : FreepikIconGenerationResponse) : String :=
  "**AI Icon Preview Generation Started**\n\n- **Task ID**: " ++ t.task_id ++
  "\n- **Status**: " ++ t.task_status ++ "\n- **Prompt**: " ++ jsShow a.prompt ++
  "\n- **Webhook URL**: " ++ jsShow a.webhook_url ++
  "\n\n*Preview generation is running. Results will be sent to your webhook URL when complete.*"

/-- Response mapping of generateIconPreview. -/
def generateIconPreviewRender (a : GenerateIconPreviewArgs) :
    UpstreamData → Except String String
  | UpstreamData.iconGen r => Except.ok (formatGenerateIconPreview a r)
  | _ => Except.error shapeError

/-- Handler of the generate_icon_preview tool. -/
def generateIconPreview (cfg : ProcessConfig) (http : HttpOracle)
    (a : GenerateIconPreviewArgs) : Except String ToolCallResult :=
  runTool http (generateIconPreviewRequest cfg a) (generateIconPreviewRender a)

/-- Caller arguments of render_generated_icon. -/
structure RenderGeneratedIconArgs where
  task_id : Option String := none
  format : Option String := none
  deriving Repr, DecidableEq

/-- The POST /ai/text-to-icon/task_id/render/format request
renderGeneratedIcon issues; format falls back to the destructuring
default "png" when absent, and the body is the empty JSON object. -/
def renderGeneratedIconRequest (cfg : ProcessConfig)
    (a : RenderGeneratedIconArgs) : HttpRequest :=
  { method := "POST"
    url := cfg.baseUrl ++ "/ai/text-to-icon/" ++ jsShow a.task_id ++ "/render/" ++
      a.format.getD "png"
    body := RequestBody.emptyJson
    headers := jsonHeaders cfg }

/-- Text of the renderGeneratedIcon reply. -/
def formatRenderGeneratedIcon (a : RenderGeneratedIconArgs)
    (t : FreepikIconGenerationResponse) : String :=
  let statusText := "**Generated Icon Status**\n\n- **Task ID**: " ++ t.task_id ++
    "\n- **Status**: " ++ t.task_status ++ "\n- **Format**: " ++ a.format.getD "png"
  if hasUrls t.generated then
    statusText ++ "\n\n**Generated Icons:**\n" ++ numberedList (t.generated.getD [])
  else
    statusText ++ "\n\n*Generation is still in progress. Check back later or wait for webhook notification.*"

/-- Response mapping of renderGeneratedIcon. -/
def renderGeneratedIconRender (a : RenderGeneratedIconArgs) :
    UpstreamData → Except String String
  | UpstreamData.iconGen r => Except.ok (formatRenderGeneratedIcon a r)
  | _ => Except.error shapeError

/-- Handler of the render_generated_icon tool. -/
def renderGeneratedIcon (cfg : ProcessConfig) (http : HttpOracle)
    (a : RenderGeneratedIconArgs) : Except String ToolCallResult :=
  runTool http (renderGeneratedIconRequest cfg a) (renderGeneratedIconRender a)

/-- Caller arguments of generate_mystic. -/
structure GenerateMysticArgs where
  prompt : Option String := none
  webhook_url : Option String := none
  structure_reference : Option String := none
  style_reference : Option String := none
  resolution : Option String := none
  aspect_ratio : Option String := none
  model : Option String := none
  deriving Repr, DecidableEq

/-- JSON body built by generateMystic: prompt always carried, each
other field appended only when truthy. -/
def generateMysticBody (a : GenerateMysticArgs) : FreepikMysticRequest :=
  { prompt := a.prompt
    webhook_url := truthyStr a.webhook_url
    structure_reference := truthyStr a.structure_reference
    style_reference := truthyStr a.style_reference
    resolution := truthyStr a.resolution
    aspect_ratio := truthyStr a.aspect_ratio
    model := truthyStr a.model }

/-- The POST /ai/mystic request generateMystic issues. -/
def generateMysticRequest (cfg : ProcessConfig) (a : GenerateMysticArgs) : HttpRequest :=
  { method := "POST"
    url := cfg.baseUrl ++ "/ai/mystic"
    body := RequestBody.mystic (generateMysticBody a)
    headers := jsonHeaders cfg }

/-- Text of the generateMystic reply. -/
def formatGenerateMystic (a : GenerateMysticArgs) (d : AITaskData) : String :=
  "**Mystic AI Generation Started**\n\n- **Task ID**: " ++ d.task_id ++
  "\n- **Status**: " ++ d.status ++ "\n- **Prompt**: " ++ jsShow a.prompt ++
  "\n- **Model**: " ++ jsOr a.model "default" ++
  "\n- **Resolution**: " ++ jsOr a.resolution "default" ++
  "\n\n*Ultra-realistic, high-resolution image generation is running. Results will be available via webhook or task status check.*"

/-- Response mapping of generateMystic. -/
def generateMysticRender (a : GenerateMysticArgs) : UpstreamData → Except String String
  | UpstreamData.aiTask r => Except.ok (formatGenerateMystic a r.data)
  | _ => Except.error shapeError

/-- Handler of the generate_mystic tool. -/
def generateMystic (cfg : ProcessConfig) (http : HttpOracle)
    (a : GenerateMysticArgs) : Except String ToolCallResult :=
  runTool http (generateMysticRequest cfg a) (generateMysticRender a)

/-- Caller arguments of the four get-task tools. -/
structure GetTaskArgs where
  task_id : Option String := none
  deriving Repr, DecidableEq

/-- The phrase getMysticTask appends when the task is COMPLETED and no
generated urls are present. -/
def mysticCompletedNoImages : String :=
  "*Task completed but no images were generated.*"

/-- The phrase getMysticTask appends while the task is still in
progress. -/
def mysticInProgress : String :=
  "*Generation is still in progress.*"

/-- The GET /ai/mystic/task_id request getMysticTask issues. -/
def getMysticTaskRequest (cfg : ProcessConfig) (a : GetTaskArgs) : HttpRequest :=
  { method := "GET"
    url := cfg.baseUrl ++ "/ai/mystic/" ++ jsShow a.task_id
    body := RequestBody.noBody
    headers := authHeaders cfg }

/-- Text of the getMysticTask reply: urls listed when present,
otherwise the COMPLETED-with-no-images phrase when the status is
exactly "COMPLETED", otherwise the in-progress phrase. -/
def formatMysticTask (d : AITaskData) : String :=
  let statusText := "**Mystic Task Status**\n\n- **Task ID**: " ++ d.task_id ++
    "\n- **Status**: " ++ d.status
  let statusText := statusText ++ (match d.has_nsfw with
    | some b => "\n- **NSFW Content**: " ++ (if b then "Yes" else "No")
    | none => "")
  if hasUrls d.generated then
    statusText ++ "\n\n**Generated Images:**\n" ++ numberedList (d.generated.getD [])
  else if d.status = "COMPLETED" then
    statusText ++ "\n\n" ++ mysticCompletedNoImages
  else
    statusText ++ "\n\n" ++ mysticInProgress

/-- Response mapping of getMysticTask. -/
def getMysticTaskRender : UpstreamData → Except String String
  | UpstreamData.aiTask r => Except.ok (formatMysticTask r.data)
  | _ => Except.error shapeError

/-- Handler of the get_mystic_task tool. -/
def getMysticTask (cfg : ProcessConfig) (http : HttpOracle)
    (a : GetTaskArgs) : Except String ToolCallResult :=
  runTool http (getMysticTaskRequest cfg a) getMysticTaskRender

/-- Arguments of the three list-tasks tools (none declared). -/
structure ListTasksArgs where
  deriving Repr, DecidableEq

/-- Numbered task list shared by the list-tasks formatters, with the
"*No tasks found.*" fallback when the joined list is the empty
string. -/
def formatTaskLines (tasks : List AITaskListItem) : String :=
  let tasksList := String.intercalate "\n" (tasks.enum.map fun p =>
    toString (p.1 + 1) ++ ". **" ++ p.2.task_id ++ "** - Status: " ++ p.2.status)
  if tasksList = "" then "*No tasks found.*" else tasksList

/-- The GET /ai/mystic request listMysticTasks issues. -/
def listMysticTasksRequest (cfg : ProcessConfig) : HttpRequest :=
  { method := "GET"
    url := cfg.baseUrl ++ "/ai/mystic"
    body := RequestBody.noBody
    headers := authHeaders cfg }

/-- Response mapping of listMysticTasks. -/
def listMysticTasksRender : UpstreamData → Except String String
  | UpstreamData.aiTasks r => Except.ok ("**All Mystic Tasks**\n\n" ++ formatTaskLines r.data)
  | _ => Except.error shapeError

/-- Handler of the list_mystic_tasks tool. -/
def listMysticTasks (cfg : ProcessConfig) (http : HttpOracle)
    (_a : ListTasksArgs) : Except String ToolCallResult :=
  runTool http (listMysticTasksRequest cfg) listMysticTasksRender

/-- Caller arguments of generate_flux_dev. -/
structure GenerateFluxDevArgs where
  prompt : Option String := none
  webhook_url : Option String := none
  aspect_ratio : Option String := none
  styling : Option FluxStyling := none
  seed : Option Int := none
  deriving Repr, DecidableEq

/-- JSON body built by generateFluxDev; styling is an object and hence
truthy whenever defined, seed is guarded by number truthiness. -/
def generateFluxDevBody (a : GenerateFluxDevArgs) : FreepikFluxDevRequest :=
  { prompt := a.prompt
    webhook_url := truthyStr a.webhook_url
    aspect_ratio := truthyStr a.aspect_ratio
    styling := a.styling
    seed := truthyInt a.seed }

/-- The POST /ai/text-to-image/flux-dev request generateFluxDev
issues. -/
def generateFluxDevRequest (cfg : ProcessConfig) (a : GenerateFluxDevArgs) : HttpRequest :=
  { method := "POST"
    url := cfg.baseUrl ++ "/ai/text-to-image/flux-dev"
    body := RequestBody.fluxDev (generateFluxDevBody a)
    headers := jsonHeaders cfg }

/-- Text of the generateFluxDev reply. -/
def formatGenerateFluxDev (a : GenerateFluxDevArgs) (d : AITaskData) : String :=
  "**Flux Dev Generation Started**\n\n- **Task ID**: " ++ d.task_id ++
  "\n- **Status**: " ++ d.status ++ "\n- **Prompt**: " ++ jsShow a.prompt ++
  "\n- **Aspect Ratio**: " ++ jsOr a.aspect_ratio "square_1_1" ++
  "\n\n*AI image generation is running. Results will be available via webhook or task status check.*"

/-- Response mapping of generateFluxDev. -/
def generateFluxDevRender (a : GenerateFluxDevArgs) : UpstreamData → Except String String
  | UpstreamData.aiTask r => Except.ok (formatGenerateFluxDev a r.data)
  | _ => Except.error shapeError

/-- Handler of the generate_flux_dev tool. -/
def generateFluxDev (cfg : ProcessConfig) (http : HttpOracle)
    (a : GenerateFluxDevArgs) : Except String ToolCallResult :=
  runTool http (generateFluxDevRequest cfg a) (generateFluxDevRender a)

/-- The GET /ai/text-to-image/flux-dev/task_id request getFluxDevTask
issues. -/
def getFluxDevTaskRequest (cfg : ProcessConfig) (a : GetTaskArgs) : HttpRequest :=
  { method := "GET"
    url := cfg.baseUrl ++ "/ai/text-to-image/flux-dev/" ++ jsShow a.task_id
    body := RequestBody.noBody
    headers := authHeaders cfg }

/-- Text of the getFluxDevTask reply. -/
def formatFluxDevTask (d : AITaskData) : String :=
  let statusText := "**Flux Dev Task Status**\n\n- **Task ID**: " ++ d.task_id ++
    "\n- **Status**: " ++ d.status
  if hasUrls d.generated then
    statusText ++ "\n\n**Generated Images:**\n" ++ numberedList (d.generated.getD [])
  else if d.status = "COMPLETED" then
    statusText ++ "\n\n*Task completed but no images were generated.*"
  else
    statusText ++ "\n\n*Generation is still in progress.*"

/-- Response mapping of getFluxDevTask. -/
def getFluxDevTaskRender : UpstreamData → Except String String
  | UpstreamData.aiTask r => Except.ok (formatFluxDevTask r.data)
  | _ => Except.error shapeError

/-- Handler of the get_flux_dev_task tool. -/
def getFluxDevTask (cfg : ProcessConfig) (http : HttpOracle)
    (a : GetTaskArgs) : Except String ToolCallResult :=
  runTool http (getFluxDevTaskRequest cfg a) getFluxDevTaskRender

/-- The GET /ai/text-to-image/flux-dev request listFluxDevTasks
issues. -/
def listFluxDevTasksRequest (cfg : ProcessConfig) : HttpRequest :=
  { method := "GET"
    url := cfg.baseUrl ++ "/ai/text-to-image/flux-dev"
    body := RequestBody.noBody
    headers := authHeaders cfg }

/-- Response mapping of listFluxDevTasks. -/
def listFluxDevTasksRender : UpstreamData → Except String String
  | UpstreamData.aiTasks r => Except.ok ("**All Flux Dev Tasks**\n\n" ++ formatTaskLines r.data)
  | _ => Except.error shapeError

/-- Handler of the list_flux_dev_tasks tool. -/
def listFluxDevTasks (cfg : ProcessConfig) (http : HttpOracle)
    (_a : ListTasksArgs) : Except String ToolCallResult :=
  runTool http (listFluxDevTasksRequest cfg) listFluxDevTasksRender

/-- Caller arguments of reimagine_flux. -/
structure ReimagineFluxArgs where
  image : Option String := none
  prompt : Option String := none
  webhook_url : Option String := none
  imagination : Option String := none
  aspect_ratio : Option String := none
  deriving Repr, DecidableEq

/-- JSON body built by reimagineFlux. -/
def reimagineFluxBody (a : ReimagineFluxArgs) : FreepikReimagineFluxRequest :=
  { image := a.image
    prompt := truthyStr a.prompt
    webhook_url := truthyStr a.webhook_url
    imagination := truthyStr a.imagination
    aspect_ratio := truthyStr a.aspect_ratio }

/-- The POST /ai/beta/text-to-image/reimagine-flux request
reimagineFlux issues. -/
def reimagineFluxRequest (cfg : ProcessConfig) (a : ReimagineFluxArgs) : HttpRequest :=
  { method := "POST"
    url := cfg.baseUrl ++ "/ai/beta/text-to-image/reimagine-flux"
    body := RequestBody.reimagine (reimagineFluxBody a)
    headers := jsonHeaders cfg }

/-- Text of the reimagineFlux reply. -/
def formatReimagineFlux (a : ReimagineFluxArgs) (d : AITaskData) : String :=
  "**Reimagine Flux Started**\n\n- **Task ID**: " ++ d.task_id ++
  "\n- **Status**: " ++ d.status ++
  "\n- **Imagination Level**: " ++ jsOr a.imagination "default" ++
  "\n- **Aspect Ratio**: " ++ jsOr a.aspect_ratio "original" ++
  "\n\n*Image reimagining is running. This is a Beta feature.*"

/-- Response mapping of reimagineFlux. -/
def reimagineFluxRender (a : ReimagineFluxArgs) : UpstreamData → Except String String
  | UpstreamData.aiTask r => Except.ok (formatReimagineFlux a r.data)
  | _ => Except.error shapeError

/-- Handler of the reimagine_flux tool. -/
def reimagineFlux (cfg : ProcessConfig) (http : HttpOracle)
    (a : ReimagineFluxArgs) : Except String ToolCallResult :=
  runTool http (reimagineFluxRequest cfg a) (reimagineFluxRender a)

/-- Caller arguments of upscale_image. -/
structure UpscaleImageArgs where
  image : Option String := none
  webhook_url : Option String := none
  scale_factor : Option String := none
  optimized_for : Option String := none
  prompt : Option String := none
  creativity : Option Int := none
  hdr : Option Int := none
  resemblance : Option Int := none
  fractality : Option Int := none
  engine : Option String := none
  deriving Repr, DecidableEq

/-- JSON body built by upscaleImage: the four signed tuning numbers are
guarded by definedness (not truthiness), so a zero is kept. -/
def upscaleImageBody (a : UpscaleImageArgs) : FreepikImageUpscalerRequest :=
  { image := a.image
    webhook_url := truthyStr a.webhook_url
    scale_factor := truthyStr a.scale_factor
    optimized_for := truthyStr a.optimized_for
    prompt := truthyStr a.prompt
    creativity := a.creativity
    hdr := a.hdr
    resemblance := a.resemblance
    fractality := a.fractality
    engine := truthyStr a.engine }

/-- The POST /ai/image-upscaler request upscaleImage issues. -/
def upscaleImageRequest (cfg : ProcessConfig) (a : UpscaleImageArgs) : HttpRequest :=
  { method := "POST"
    url := cfg.baseUrl ++ "/ai/image-upscaler"
    body := RequestBody.upscaler (upscaleImageBody a)
    headers := jsonHeaders cfg }

/-- Text of the upscaleImage reply. -/
def formatUpscaleImage (a : UpscaleImageArgs) (d : AITaskData) : String :=
  "**Image Upscaling Started**\n\n- **Task ID**: " ++ d.task_id ++
  "\n- **Status**: " ++ d.status ++
  "\n- **Scale Factor**: " ++ jsOr a.scale_factor "default" ++
  "\n- **Optimization**: " ++ jsOr a.optimized_for "standard" ++
  "\n\n*AI image upscaling is running. Results will be available via webhook or task status check.*"

/-- Response mapping of upscaleImage. -/
def upscaleImageRender (a : UpscaleImageArgs) : UpstreamData → Except String String
  | UpstreamData.aiTask r => Except.ok (formatUpscaleImage a r.data)
  | _ => Except.error shapeError

/-- Handler of the upscale_image tool. -/
def upscaleImage (cfg : ProcessConfig) (http : HttpOracle)
    (a : UpscaleImageArgs) : Except String ToolCallResult :=
  runTool http (upscaleImageRequest cfg a) (upscaleImageRender a)

/-- The GET /ai/image-upscaler/task_id request getUpscalerTask
issues. -/
def getUpscalerTaskRequest (cfg : ProcessConfig) (a : GetTaskArgs) : HttpRequest :=
  { method := "GET"
    url := cfg.baseUrl ++ "/ai/image-upscaler/" ++ jsShow a.task_id
    body := RequestBody.noBody
    headers := authHeaders cfg }

/-- Text of the getUpscalerTask reply. -/
def formatUpscalerTask (d : AITaskData) : String :=
  let statusText := "**Upscaler Task Status**\n\n- **Task ID**: " ++ d.task_id ++
    "\n- **Status**: " ++ d.status
  if hasUrls d.generated then
    statusText ++ "\n\n**Upscaled Images:**\n" ++ numberedList (d.generated.getD [])
  else if d.status = "COMPLETED" then
    statusText ++ "\n\n*Task completed but no images were generated.*"
  else
    statusText ++ "\n\n*Upscaling is still in progress.*"

/-- Response mapping of getUpscalerTask. -/
def getUpscalerTaskRender : UpstreamData → Except String String
  | UpstreamData.aiTask r => Except.ok (formatUpscalerTask r.data)
  | _ => Except.error shapeError

/-- Handler of the get_upscaler_task tool. -/
def getUpscalerTask (cfg : ProcessConfig) (http : HttpOracle)
    (a : GetTaskArgs) : Except String ToolCallResult :=
  runTool http (getUpscalerTaskRequest cfg a) getUpscalerTaskRender

/-- The GET /ai/image-upscaler request listUpscalerTasks issues. -/
def listUpscalerTasksRequest (cfg : ProcessConfig) : HttpRequest :=
  { method := "GET"
    url := cfg.baseUrl ++ "/ai/image-upscaler"
    body := RequestBody.noBody
    headers := authHeaders cfg }

/-- Response mapping of listUpscalerTasks. -/
def listUpscalerTasksRender : UpstreamData → Except String String
  | UpstreamData.aiTasks r => Except.ok ("**All Upscaler Tasks**\n\n" ++ formatTaskLines r.data)
  | _ => Except.error shapeError

/-- Handler of the list_upscaler_tasks tool. -/
def listUpscalerTasks (cfg : ProcessConfig) (http : HttpOracle)
    (_a : ListTasksArgs) : Except String ToolCallResult :=
  runTool http (listUpscalerTasksRequest cfg) listUpscalerTasksRender

/-- Caller arguments of remove_background. -/
structure RemoveBackgroundArgs where
  image_url : Option String := none
  deriving Repr, DecidableEq

/-- The POST /ai/beta/remove-background request removeBackground
issues: the body is the url-encoded form string
image_url=encodeURIComponent(image_url), not JSON, and the content type
header says so. -/
def removeBackgroundRequest (cfg : ProcessConfig) (a : RemoveBackgroundArgs) : HttpRequest :=
  { method := "POST"
    url := cfg.baseUrl ++ "/ai/beta/remove-background"
    body := RequestBody.form ("image_url=" ++ encodeURIComponent (jsShow a.image_url))
    headers := [("x-freepik-api-key", cfg.apiKey),
                ("Content-Type", "application/x-www-form-urlencoded")] }

/-- Text of the removeBackground reply: surfaces the four url fields of
the upstream response. -/
def formatRemoveBackground (r : FreepikRemoveBackgroundResponse) : String :=
  "**Background Removed Successfully**\n\n- **Original**: " ++ r.original ++
  "\n- **High Resolution**: " ++ r.high_resolution ++
  "\n- **Preview**: " ++ r.preview ++
  "\n- **Download URL**: " ++ r.url ++
  "\n\n*Note: URLs are temporary and valid for only 5 minutes.*"

/-- Response mapping of removeBackground. -/
def removeBackgroundRender : UpstreamData → Except String String
  | UpstreamData.removeBg r => Except.ok (formatRemoveBackground r)
  | _ => Except.error shapeError

/-- Handler of the remove_background tool. -/
def removeBackground (cfg : ProcessConfig) (http : HttpOracle)
    (a : RemoveBackgroundArgs) : Except String ToolCallResult :=
  runTool http (removeBackgroundRequest cfg a) removeBackgroundRender

/-- Caller arguments of expand_image. -/
structure ExpandImageArgs where
  image : Option String := none
  prompt : Option String := none
  left : Option Int := none
  right : Option Int := none
  top : Option Int := none
  bottom : Option Int := none
  webhook_url : Option String := none
  deriving Repr, DecidableEq

/-- JSON body built by expandImage: the four margins are guarded by
definedness, so a zero is kept. -/
def expandImageBody (a : ExpandImageArgs) : FreepikImageExpandRequest :=
  { image := a.image
    prompt := truthyStr a.prompt
    left := a.left
    right := a.right
    top := a.top
    bottom := a.bottom
    webhook_url := truthyStr a.webhook_url }

/-- The POST /ai/image-expand/flux-pro request expandImage issues. -/
def expandImageRequest (cfg : ProcessConfig) (a : ExpandImageArgs) : HttpRequest :=
  { method := "POST"
    url := cfg.baseUrl ++ "/ai/image-expand/flux-pro"
    body := RequestBody.expand (expandImageBody a)
    headers := jsonHeaders cfg }

/-- Text of the expandImage reply; each absent margin renders as 0
through the JavaScript or-default. -/
def formatExpandImage (a : ExpandImageArgs) (d : AITaskData) : String :=
  "**Image Expansion Started**\n\n- **Task ID**: " ++ d.task_id ++
  "\n- **Status**: " ++ d.status ++
  "\n- **Expansion**: Left:" ++ toString (a.left.getD 0) ++
  " Right:" ++ toString (a.right.getD 0) ++
  " Top:" ++ toString (a.top.getD 0) ++
  " Bottom:" ++ toString (a.bottom.getD 0) ++
  "\n\n*AI image expansion using Flux Pro is running.*"

/-- Response mapping of expandImage. -/
def expandImageRender (a : ExpandImageArgs) : UpstreamData → Except String String
  | UpstreamData.aiTask r => Except.ok (formatExpandImage a r.data)
  | _ => Except.error shapeError

/-- Handler of the expand_image tool. -/
def expandImage (cfg : ProcessConfig) (http : HttpOracle)
    (a : ExpandImageArgs) : Except String ToolCallResult :=
  runTool http (expandImageRequest cfg a) (expandImageRender a)

/-- The GET /ai/image-expand/flux-pro/task_id request getExpandTask
issues. -/
def getExpandTaskRequest (cfg : ProcessConfig) (a : GetTaskArgs) : HttpRequest :=
  { method := "GET"
    url := cfg.baseUrl ++ "/ai/image-expand/flux-pro/" ++ jsShow a.task_id
    body := RequestBody.noBody
    headers := authHeaders cfg }

/-- Text of the getExpandTask reply. -/
def formatExpandTask (d : AITaskData) : String :=
  let statusText := "**Expand Task Status**\n\n- **Task ID**: " ++ d.task_id ++
    "\n- **Status**: " ++ d.status
  if hasUrls d.generated then
    statusText ++ "\n\n**Expanded Images:**\n" ++ numberedList (d.generated.getD [])
  else if d.status = "COMPLETED" then
    statusText ++ "\n\n*Task completed but no images were generated.*"
  else
    statusText ++ "\n\n*Expansion is still in progress.*"

/-- Response mapping of getExpandTask. -/
def getExpandTaskRender : UpstreamData → Except String String
  | UpstreamData.aiTask r => Except.ok (formatExpandTask r.data)
  | _ => Except.error shapeError

/-- Handler of the get_expand_task tool. -/
def getExpandTask (cfg : ProcessConfig) (http : HttpOracle)
    (a : GetTaskArgs) : Except String ToolCallResult :=
  runTool http (getExpandTaskRequest cfg a) getExpandTaskRender

/-- The GET /ai/image-expand/flux-pro request listExpandTasks issues. -/
def listExpandTasksRequest (cfg : ProcessConfig) : HttpRequest :=
  { method := "GET"
    url := cfg.baseUrl ++ "/ai/image-expand/flux-pro"
    body := RequestBody.noBody
    headers := authHeaders cfg }

/-- Response mapping of listExpandTasks. -/
def listExpandTasksRender : UpstreamData → Except String String
  | UpstreamData.aiTasks r => Except.ok ("**All Expand Tasks**\n\n" ++ formatTaskLines r.data)
  | _ => Except.error shapeError

/-- Handler of the list_expand_tasks tool. -/
def listExpandTasks (cfg : ProcessConfig) (http : HttpOracle)
    (_a : ListTasksArgs) : Except String ToolCallResult :=
  runTool http (listExpandTasksRequest cfg) listExpandTasksRender

/-- Caller arguments of get_resource_details. -/
structure GetResourceDetailsArgs where
  resource_id : Option String := none
  deriving Repr, DecidableEq

/-- The GET /resources/resource_id request getResourceDetails issues. -/
def getResourceDetailsRequest (cfg : ProcessConfig)
    (a : GetResourceDetailsArgs) : HttpRequest :=
  { method := "GET"
    url := cfg.baseUrl ++ "/resources/" ++ jsShow a.resource_id
    body := RequestBody.noBody
    headers := authHeaders cfg }

/-- Text of the getResourceDetails reply. -/
def formatResourceDetails (r : FreepikResource) : String :=
  "**Resource Details**\n\n- **ID**: " ++ r.id ++ "\n- **Title**: " ++ r.title ++
  "\n- **Author**: " ++ r.author.username ++ "\n- **License**: " ++ r.license ++
  "\n- **Image URL**: " ++ r.image.source.url ++ "\n- **Resource URL**: " ++ r.url

/-- Response mapping of getResourceDetails. -/
def getResourceDetailsRender : UpstreamData → Except String String
  | UpstreamData.resource r => Except.ok (formatResourceDetails r)
  | _ => Except.error shapeError

/-- Handler of the get_resource_details tool. -/
def getResourceDetails (cfg : ProcessConfig) (http : HttpOracle)
    (a : GetResourceDetailsArgs) : Except String ToolCallResult :=
  runTool http (getResourceDetailsRequest cfg a) getResourceDetailsRender

/-- The untyped argument bag of a tool call, modelled per tool as the
schema-typed argument structure.  A constructor that does not match the
tool the dispatcher runs projects to the all-absent record, which is
exactly how a JavaScript handler destructures a bag holding none of its
expected keys. -/
inductive Args where
  | searchResources (a : SearchResourcesArgs)
  | searchIcons (a : SearchIconsArgs)
  | downloadIcon (a : DownloadIconArgs)
  | downloadResource (a : DownloadResourceArgs)
  | downloadResourceFormat (a : DownloadResourceFormatArgs)
  | generateIcon (a : GenerateIconArgs)
  | generateIconPreview (a : GenerateIconPreviewArgs)
  | renderGeneratedIcon (a : RenderGeneratedIconArgs)
  | generateMystic (a : GenerateMysticArgs)
  | getMysticTask (a : GetTaskArgs)
  | listMysticTasks (a : ListTasksArgs)
  | generateFluxDev (a : GenerateFluxDevArgs)
  | getFluxDevTask (a : GetTaskArgs)
  | listFluxDevTasks (a : ListTasksArgs)
  | reimagineFlux (a : ReimagineFluxArgs)
  | upscaleImage (a : UpscaleImageArgs)
  | getUpscalerTask (a : GetTaskArgs)
  | listUpscalerTasks (a : ListTasksArgs)
  | removeBackground (a : RemoveBackgroundArgs)
  | expandImage (a : ExpandImageArgs)
  | getExpandTask (a : GetTaskArgs)
  | listExpandTasks (a : ListTasksArgs)
  | getResourceDetails (a : GetResourceDetailsArgs)
  deriving Repr, DecidableEq

/-- Destructures the bag as search_resources arguments. -/
def Args.asSearchResources : Args → SearchResourcesArgs
  | Args.searchResources a => a
  | _ => {}

/-- Destructures the bag as search_icons arguments. -/
def Args.asSearchIcons : Args → SearchIconsArgs
  | Args.searchIcons a => a
  | _ => {}

/-- Destructures the bag as download_icon arguments. -/
def Args.asDownloadIcon : Args → DownloadIconArgs
  | Args.downloadIcon a => a
  | _ => {}

/-- Destructures the bag as download_resource arguments. -/
def Args.asDownloadResource : Args → DownloadResourceArgs
  | Args.downloadResource a => a
  | _ => {}

/-- Destructures the bag as download_resource_format arguments. -/
def Args.asDownloadResourceFormat : Args → DownloadResourceFormatArgs
  | Args.downloadResourceFormat a => a
  | _ => {}

/-- Destructures the bag as generate_icon arguments. -/
def Args.asGenerateIcon : Args → GenerateIconArgs
  | Args.generateIcon a => a
  | _ => {}

/-- Destructures the bag as generate_icon_preview arguments. -/
def Args.asGenerateIconPreview : Args → GenerateIconPreviewArgs
  | Args.generateIconPreview a => a
  | _ => {}

/-- Destructures the bag as render_generated_icon arguments. -/
def Args.asRenderGeneratedIcon : Args → RenderGeneratedIconArgs
  | Args.renderGeneratedIcon a => a
  | _ => {}

/-- Destructures the bag as generate_mystic arguments. -/
def Args.asGenerateMystic : Args → GenerateMysticArgs
  | Args.generateMystic a => a
  | _ => {}

/-- Destructures the bag as get_mystic_task arguments. -/
def Args.asGetMysticTask : Args → GetTaskArgs
  | Args.getMysticTask a => a
  | _ => {}

/-- Destructures the bag as generate_flux_dev arguments. -/
def Args.asGenerateFluxDev : Args → GenerateFluxDevArgs
  | Args.generateFluxDev a => a
  | _ => {}

/-- Destructures the bag as get_flux_dev_task arguments. -/
def Args.asGetFluxDevTask : Args → GetTaskArgs
  | Args.getFluxDevTask a => a
  | _ => {}

/-- Destructures the bag as reimagine_flux arguments. -/
def Args.asReimagineFlux : Args → ReimagineFluxArgs
  | Args.reimagineFlux a => a
  | _ => {}

/-- Destructures the bag as upscale_image arguments. -/
def Args.asUpscaleImage : Args → UpscaleImageArgs
  | Args.upscaleImage a => a
  | _ => {}

/-- Destructures the bag as get_upscaler_task arguments. -/
def Args.asGetUpscalerTask : Args → GetTaskArgs
  | Args.getUpscalerTask a => a
  | _ => {}

/-- Destructures the bag as remove_background arguments. -/
def Args.asRemoveBackground : Args → RemoveBackgroundArgs
  | Args.removeBackground a => a
  | _ => {}

/-- Destructures the bag as expand_image arguments. -/
def Args.asExpandImage : Args → ExpandImageArgs
  | Args.expandImage a => a
  | _ => {}

/-- Destructures the bag as get_expand_task arguments. -/
def Args.asGetExpandTask : Args → GetTaskArgs
  | Args.getExpandTask a => a
  | _ => {}

/-- Destructures the bag as get_resource_details arguments. -/
def Args.asGetResourceDetails : Args → GetResourceDetailsArgs
  | Args.getResourceDetails a => a
  | _ => {}

/-- The 23 tool names of the catalog, in declaration order. -/
def knownToolNames : List String :=
  ["search_resources", "search_icons", "download_icon", "download_resource",
   "download_resource_format", "generate_icon", "generate_icon_preview",
   "render_generated_icon", "generate_mystic", "get_mystic_task",
   "list_mystic_tasks", "generate_flux_dev", "get_flux_dev_task",
   "list_flux_dev_tasks", "reimagine_flux", "upscale_image",
   "get_upscaler_task", "list_upscaler_tasks", "remove_background",
   "expand_image", "get_expand_task", "list_expand_tasks",
   "get_resource_details"]

/-- The switch of the CallToolRequestSchema handler, before the
try/catch: exact, case-sensitive comparison of the requested name
against each tool, falling through to the thrown Unknown tool error. -/
def dispatchCore (cfg : ProcessConfig) (http : HttpOracle) (name : String)
    (args : Args) : Except String ToolCallResult :=
  if name = "search_resources" then searchResources cfg http args.asSearchResources
  else if name = "search_icons" then searchIcons cfg http args.asSearchIcons
  else if name = "download_icon" then downloadIcon cfg http args.asDownloadIcon
  else if name = "download_resource" then downloadResource cfg http args.asDownloadResource
  else if name = "download_resource_format" then
    downloadResourceFormat cfg http args.asDownloadResourceFormat
  else if name = "generate_icon" then generateIcon cfg http args.asGenerateIcon
  else if name = "generate_icon_preview" then
    generateIconPreview cfg http args.asGenerateIconPreview
  else if name = "render_generated_icon" then
    renderGeneratedIcon cfg http args.asRenderGeneratedIcon
  else if name = "generate_mystic" then generateMystic cfg http args.asGenerateMystic
  else if name = "get_mystic_task" then getMysticTask cfg http args.asGetMysticTask
  else if name = "list_mystic_tasks" then listMysticTasks cfg http {}
  else if name = "generate_flux_dev" then generateFluxDev cfg http args.asGenerateFluxDev
  else if name = "get_flux_dev_task" then getFluxDevTask cfg http args.asGetFluxDevTask
  else if name = "list_flux_dev_tasks" then listFluxDevTasks cfg http {}
  else if name = "reimagine_flux" then reimagineFlux cfg http args.asReimagineFlux
  else if name = "upscale_image" then upscaleImage cfg http args.asUpscaleImage
  else if name = "get_upscaler_task" then getUpscalerTask cfg http args.asGetUpscalerTask
  else if name = "list_upscaler_tasks" then listUpscalerTasks cfg http {}
  else if name = "remove_background" then removeBackground cfg http args.asRemoveBackground
  else if name = "expand_image" then expandImage cfg http args.asExpandImage
  else if name = "get_expand_task" then getExpandTask cfg http args.asGetExpandTask
  else if name = "list_expand_tasks" then listExpandTasks cfg http {}
  else if name = "get_resource_details" then
    getResourceDetails cfg http args.asGetResourceDetails
  else Except.error ("Unknown tool: " ++ name)

/-- The CallToolRequestSchema handler: run the switch and catch any
failure, converting it into the uniform single-text-block reply whose
text is "Error: " followed by the failure message.  Its total return
type is the formal statement that nothing propagates to the
transport. -/
def callTool (cfg : ProcessConfig) (http : HttpOracle) (name : String)
    (args : Args) : ToolCallResult :=
  match dispatchCore cfg http name args with
  | Except.ok r => r
  | Except.error msg => textResult ("Error: " ++ msg)

namespace V2

/-- Caller arguments of search_resources in the reduced variant
(src/unnamed/part_000). -/
structure SearchResourcesArgs where
  query : Option String := none
  page : Option Int := none
  limit : Option Int := none
  orientation : Option String := none
  content_type : Option String := none
  color : Option String := none
  people_age : Option String := none
  people_gender : Option String := none
  deriving Repr, DecidableEq

/-- Query parameters built by the reduced searchResources: the search
term is sent under the key "q" and only when truthy, the limit is
clamped with Math.min(limit, 200). -/
def searchResourcesParams (a : SearchResourcesArgs) : List (String × String) :=
  let query := a.query.getD ""
  let page := a.page.getD 1
  let limit := a.limit.getD 20
  (if query = "" then [] else [("q", query)])
    ++ [("page", toString page), ("limit", toString (min limit 200))]
    ++ strOptParam "orientation" a.orientation
    ++ strOptParam "content_type" a.content_type
    ++ strOptParam "color" a.color
    ++ strOptParam "people_age" a.people_age
    ++ strOptParam "people_gender" a.people_gender

end V2

/-- Name and required-parameter array of one catalog entry, as declared
in the inputSchema objects returned by the ListToolsRequestSchema
handler. -/
structure ToolDecl where
  name : String
  required : List String
  deriving Repr, DecidableEq

/-- The required arrays of all 23 tool descriptors, in catalog order. -/
def toolCatalog : List ToolDecl :=
  [⟨"search_resources", []⟩,
   ⟨"search_icons", []⟩,
   ⟨"download_icon", ["icon_id"]⟩,
   ⟨"download_resource", ["resource_id"]⟩,
   ⟨"download_resource_format", ["resource_id", "format"]⟩,
   ⟨"generate_icon", ["prompt", "webhook_url"]⟩,
   ⟨"generate_icon_preview", ["prompt", "webhook_url"]⟩,
   ⟨"render_generated_icon", ["task_id", "format"]⟩,
   ⟨"generate_mystic", ["prompt"]⟩,
   ⟨"get_mystic_task", ["task_id"]⟩,
   ⟨"list_mystic_tasks", []⟩,
   ⟨"generate_flux_dev", ["prompt"]⟩,
   ⟨"get_flux_dev_task", ["task_id"]⟩,
   ⟨"list_flux_dev_tasks", []⟩,
   ⟨"reimagine_flux", ["image"]⟩,
   ⟨"upscale_image", ["image"]⟩,
   ⟨"get_upscaler_task", ["task_id"]⟩,
   ⟨"list_upscaler_tasks", []⟩,
   ⟨"remove_background", ["image_url"]⟩,
   ⟨"expand_image", ["image"]⟩,
   ⟨"get_expand_task", ["task_id"]⟩,
   ⟨"list_expand_tasks", []⟩,
   ⟨"get_resource_details", ["resource_id"]⟩]

/-- The required array declared by the render_generated_icon
inputSchema. -/
def renderGeneratedIconRequired : List String :=
  ["task_id", "format"]

/-- Declared lower bound of the guidance_scale parameter of
generate_icon (inputSchema minimum). -/
def generateIconGuidanceScaleMin : Int := 0

/-- Declared upper bound of the guidance_scale parameter of
generate_icon (inputSchema maximum). -/
def generateIconGuidanceScaleMax : Int := 10

/-- The formal reading of "the render_generated_icon handler treats
format as mandatory": no default is substituted, i.e. a call without a
format never builds the same request as one that supplies the default
"png". -/
def renderFormatNotDefaulted : Prop :=
  ∀ a : RenderGeneratedIconArgs, a.format = none →
    renderGeneratedIconRequest { apiKey := "key" } a ≠
      renderGeneratedIconRequest { apiKey := "key" } { a with format := some "png" }

/-- A concrete process configuration for closed instantiations. -/
def cfg0 : ProcessConfig :=
  { apiKey := "key" }

/-- An oracle whose only behavior is a connection-refused throw. -/
def httpRefused : HttpOracle :=
  fun _ => Except.error "connection refused"

/-- The C9 failing input: a generate_icon call whose guidance_scale is
the schema-valid 0. -/
def generateIconArgs0 : GenerateIconArgs :=
  { prompt := some "a cat icon"
    webhook_url := some "https://example.com/hook"
    num_inference_steps := some 30
    guidance_scale := some 0 }

/-- String concatenation is associative. -/
theorem string_append_assoc (a b c : String) : a ++ b ++ c = a ++ (b ++ c) := by
  cases a with
  | mk la =>
    cases b with
    | mk lb =>
      cases c with
      | mk lc =>
        show String.mk (la ++ lb ++ lc) = String.mk (la ++ (lb ++ lc))
        rw [List.append_assoc]

/-- A successful handler run is always the single-text-block result of
some rendered string. -/
theorem runTool_ok (http : HttpOracle) (req : HttpRequest)
    (render : UpstreamData → Except String String) (r : ToolCallResult)
    (h : runTool http req render = Except.ok r) : ∃ s, r = textResult s := by
  unfold runTool at h
  split at h
  · cases h
  · split at h
    · cases h
    · cases h
      exact ⟨_, rfl⟩

/-- Every successful branch of the dispatch switch is the
single-text-block result of some rendered string. -/
theorem dispatchCore_ok (cfg : ProcessConfig) (http : HttpOracle)
    (name : String) (args : Args) (r : ToolCallResult)
    (h : dispatchCore cfg http name args = Except.ok r) : ∃ s, r = textResult s := by
  unfold dispatchCore at h
  by_cases h1 : name = "search_resources"
  · rw [if_pos h1] at h
    exact runTool_ok _ _ _ _ h
  rw [if_neg h1] at h
  by_cases h2 : name = "search_icons"
  · rw [if_pos h2] at h
    exact runTool_ok _ _ _ _ h
  rw [if_neg h2] at h
  by_cases h3 : name = "download_icon"
  · rw [if_pos h3] at h
    exact runTool_ok _ _ _ _ h
  rw [if_neg h3] at h
  by_cases h4 : name = "download_resource"
  · rw [if_pos h4] at h
    exact runTool_ok _ _ _ _ h
  rw [if_neg h4] at h
  by_cases h5 : name = "download_resource_format"
  · rw [if_pos h5] at h
    exact runTool_ok _ _ _ _ h
  rw [if_neg h5] at h
  by_cases h6 : name = "generate_icon"
  · rw [if_pos h6] at h
    exact runTool_ok _ _ _ _ h
  rw [if_neg h6] at h
  by_cases h7 : name = "generate_icon_preview"
  · rw [if_pos h7] at h
    exact runTool_ok _ _ _ _ h
  rw [if_neg h7] at h
  by_cases h8 : name = "render_generated_icon"
  · rw [if_pos h8] at h
    exact runTool_ok _ _ _ _ h
  rw [if_neg h8] at h
  by_cases h9 : name = "generate_mystic"
  · rw [if_pos h9] at h
    exact runTool_ok _ _ _ _ h
  rw [if_neg h9] at h
  by_cases h10 : name = "get_mystic_task"
  · rw [if_pos h10] at h
    exact runTool_ok _ _ _ _ h
  rw [if_neg h10] at h
  by_cases h11 : name = "list_mystic_tasks"
  · rw [if_pos h11] at h
    exact runTool_ok _ _ _ _ h
  rw [if_neg h11] at h
  by_cases h12 : name = "generate_flux_dev"
  · rw [if_pos h12] at h
    exact runTool_ok _ _ _ _ h
  rw [if_neg h12] at h
  by_cases h13 : name = "get_flux_dev_task"
  · rw [if_pos h13] at h
    exact runTool_ok _ _ _ _ h
  rw [if_neg h13] at h
  by_cases h14 : name = "list_flux_dev_tasks"
  · rw [if_pos h14] at h
    exact runTool_ok _ _ _ _ h
  rw [if_neg h14] at h
  by_cases h15 : name = "reimagine_flux"
  · rw [if_pos h15] at h
    exact runTool_ok _ _ _ _ h
  rw [if_neg h15] at h
  by_cases h16 : name = "upscale_image"
  · rw [if_pos h16] at h
    exact runTool_ok _ _ _ _ h
  rw [if_neg h16] at h
  by_cases h17 : name = "get_upscaler_task"
  · rw [if_pos h17] at h
    exact runTool_ok _ _ _ _ h
  rw [if_neg h17] at h
  by_cases h18 : name = "list_upscaler_tasks"
  · rw [if_pos h18] at h
    exact runTool_ok _ _ _ _ h
  rw [if_neg h18] at h
  by_cases h19 : name = "remove_background"
  · rw [if_pos h19] at h
    exact runTool_ok _ _ _ _ h
  rw [if_neg h19] at h
  by_cases h20 : name = "expand_image"
  · rw [if_pos h20] at h
    exact runTool_ok _ _ _ _ h
  rw [if_neg h20] at h
  by_cases h21 : name = "get_expand_task"
  · rw [if_pos h21] at h
    exact runTool_ok _ _ _ _ h
  rw [if_neg h21] at h
  by_cases h22 : name = "list_expand_tasks"
  · rw [if_pos h22] at h
    exact runTool_ok _ _ _ _ h
  rw [if_neg h22] at h
  by_cases h23 : name = "get_resource_details"
  · rw [if_pos h23] at h
    exact runTool_ok _ _ _ _ h
  rw [if_neg h23] at h
  cases h

/-- C1: for every tool call — any configuration, any network behavior,
any tool name and any argument bag — the dispatcher returns a
ToolCallResult with exactly one text block (type "text"), and whenever
the invoked handler raises a failure (modelled by the error branch of
the dispatched computation: upstream rejection, network failure, JSON
decode failure), the reply is the single text block "Error: " followed
by the failure message.  callTool is total, so no handler failure ever
propagates past the dispatcher to the transport. -/
theorem callTool_failure_isolation (cfg : ProcessConfig) (http : HttpOracle)
    (name : String) (args : Args) :
    (∃ s, callTool cfg http name args = textResult s) ∧
    ∀ msg, dispatchCore cfg http name args = Except.error msg →
      callTool cfg http name args = textResult ("Error: " ++ msg) := by
  constructor
  · unfold callTool
    cases h : dispatchCore cfg http name args with
    | error e => exact ⟨_, rfl⟩
    | ok r => exact dispatchCore_ok cfg http name args r h
  · intro msg h
    unfold callTool
    rw [h]

/-- Closed instance of C1: a connection-refused throw inside the
get_mystic_task handler surfaces as the single text block
"Error: connection refused". -/
theorem callTool_failure_isolation_witness :
    callTool cfg0 httpRefused "get_mystic_task"
        (Args.getMysticTask { task_id := some "t" }) =
      textResult "Error: connection refused" := by
  have h := (callTool_failure_isolation cfg0 httpRefused "get_mystic_task"
    (Args.getMysticTask { task_id := some "t" })).2 "connection refused" rfl
  exact h


/-- C2: for every tool name outside the catalog — lookup is the exact,
case-sensitive comparison chain of the switch — callTool returns the
caught reply whose single text is exactly "Error: Unknown tool: "
followed by the name, for any arguments and any network behavior. -/
theorem callTool_unknown_tool (cfg : ProcessConfig) (http : HttpOracle)
    (name : String) (args : Args) (h : name ∉ knownToolNames) :
    callTool cfg http name args = textResult ("Error: Unknown tool: " ++ name) := by
  simp only [knownToolNames, List.mem_cons, List.not_mem_nil, or_false, not_or] at h
  obtain ⟨h1, h2, h3, h4, h5, h6, h7, h8, h9, h10, h11, h12, h13, h14, h15, h16, h17,
    h18, h19, h20, h21, h22, h23⟩ := h
  unfold callTool dispatchCore
  rw [if_neg h1, if_neg h2, if_neg h3, if_neg h4, if_neg h5, if_neg h6, if_neg h7,
    if_neg h8, if_neg h9, if_neg h10, if_neg h11, if_neg h12, if_neg h13, if_neg h14,
    if_neg h15, if_neg h16, if_neg h17, if_neg h18, if_neg h19, if_neg h20, if_neg h21,
    if_neg h22, if_neg h23]
  show textResult ("Error: " ++ ("Unknown tool: " ++ name)) =
    textResult ("Error: Unknown tool: " ++ name)
  rw [← string_append_assoc]
  rfl

/-- Closed instance of C2: the name "does_not_exist" (matching no
catalog entry) yields exactly the unknown-tool error text. -/
theorem callTool_unknown_tool_witness :
    "does_not_exist" ∉ knownToolNames ∧
    callTool cfg0 httpRefused "does_not_exist" (Args.getMysticTask {}) =
      textResult "Error: Unknown tool: does_not_exist" := by
  refine ⟨by decide, ?_⟩
  have h := callTool_unknown_tool cfg0 httpRefused "does_not_exist"
    (Args.getMysticTask {}) (by decide)
  exact h

/-- Lookup distributes over appended parameter blocks. -/
theorem queryLookup_append (k : String) (xs ys : List (String × String)) :
    queryLookup k (xs ++ ys) =
      (queryLookup k xs).orElse (fun _ => queryLookup k ys) := by
  induction xs with
  | nil => simp [queryLookup]
  | cons p rest ih =>
    obtain ⟨k', v⟩ := p
    by_cases hk : k' = k
    · simp [queryLookup, hk]
    · simp [queryLookup, hk, ih]

/-- A truthiness-guarded string block never carries another key. -/
theorem queryLookup_strOptParam_ne (k k' : String) (v : Option String)
    (h : ¬ k' = k) : queryLookup k (strOptParam k' v) = none := by
  cases v with
  | none => rfl
  | some s =>
    by_cases hs : s = ""
    · simp [strOptParam, hs, queryLookup]
    · simp [strOptParam, hs, queryLookup, h]

/-- A definedness-guarded boolean block never carries another key. -/
theorem queryLookup_boolOptParam_ne (k k' : String) (v : Option Bool)
    (h : ¬ k' = k) : queryLookup k (boolOptParam k' v) = none := by
  cases v with
  | none => rfl
  | some b => simp [boolOptParam, queryLookup, h]

/-- C3: in both variants, the limit sent to the upstream search is
Math.min of the caller-supplied limit and 200. -/
theorem searchResources_limit_clamped (a : SearchResourcesArgs)
    (a2 : V2.SearchResourcesArgs) (l l2 : Int)
    (h : a.limit = some l) (h2 : a2.limit = some l2) :
    queryLookup "limit" (searchResourcesParams a) = some (toString (min l 200)) ∧
    queryLookup "limit" (V2.searchResourcesParams a2) = some (toString (min l2 200)) := by
  constructor
  · by_cases hq : a.query.getD "" = "" <;>
      simp [searchResourcesParams, h, hq, queryLookup]
  · by_cases hq : a2.query.getD "" = "" <;>
      simp [V2.searchResourcesParams, h2, hq, queryLookup]

/-- Closed instance of C3: a caller-supplied limit of 500 goes out as
200 in both variants. -/
theorem searchResources_limit_clamped_witness :
    queryLookup "limit" (searchResourcesParams { limit := some 500 }) = some "200" ∧
    queryLookup "limit" (V2.searchResourcesParams { limit := some 500 }) = some "200" := by
  have h := searchResources_limit_clamped { limit := some 500 } { limit := some 500 }
    500 500 rfl rfl
  exact h

/-- C4: when the query argument is absent or empty, neither variant
sends a search-term parameter (key "term" in the full variant, key "q"
in the reduced variant). -/
theorem searchResources_empty_query_omitted (a : SearchResourcesArgs)
    (a2 : V2.SearchResourcesArgs)
    (hq : a.query = none ∨ a.query = some "")
    (hq2 : a2.query = none ∨ a2.query = some "") :
    queryLookup "term" (searchResourcesParams a) = none ∧
    queryLookup "q" (V2.searchResourcesParams a2) = none := by
  have e1 : a.query.getD "" = "" := by rcases hq with h | h <;> simp [h]
  have e2 : a2.query.getD "" = "" := by rcases hq2 with h | h <;> simp [h]
  constructor
  · simp [searchResourcesParams, e1, queryLookup_append, queryLookup,
      queryLookup_strOptParam_ne, queryLookup_boolOptParam_ne]
  · simp [V2.searchResourcesParams, e2, queryLookup_append, queryLookup,
      queryLookup_strOptParam_ne, queryLookup_boolOptParam_ne]

/-- Closed instance of C4: an absent query and an empty-string query
both omit the search-term parameter. -/
theorem searchResources_empty_query_omitted_witness :
    queryLookup "term" (searchResourcesParams {}) = none ∧
    queryLookup "q" (V2.searchResourcesParams { query := some "" }) = none := by
  have h := searchResources_empty_query_omitted {} { query := some "" }
    (Or.inl rfl) (Or.inr rfl)
  exact h

/-- C5: with format "png" and png_size 256 the outgoing query carries
both format=png and png_size=256; with format "svg" — supplied or the
default — png_size is omitted whatever the caller passed for it. -/
theorem downloadIcon_png_size_params (a b : DownloadIconArgs)
    (ha1 : a.format = some "png") (ha2 : a.png_size = some 256)
    (hb : b.format = none ∨ b.format = some "svg") :
    queryLookup "format" (downloadIconParams a) = some "png" ∧
    queryLookup "png_size" (downloadIconParams a) = some "256" ∧
    queryLookup "png_size" (downloadIconParams b) = none := by
  refine ⟨?_, ?_, ?_⟩
  · simp [downloadIconParams, ha1, ha2, queryLookup]
  · simp [downloadIconParams, ha1, ha2, queryLookup]
    decide
  · rcases hb with hb | hb <;> simp [downloadIconParams, hb, queryLookup]

/-- Closed instance of C5 at concrete argument bags. -/
theorem downloadIcon_png_size_params_witness :
    queryLookup "format"
        (downloadIconParams { icon_id := some 123, format := some "png", png_size := some 256 }) =
      some "png" ∧
    queryLookup "png_size"
        (downloadIconParams { icon_id := some 123, format := some "png", png_size := some 256 }) =
      some "256" ∧
    queryLookup "png_size"
        (downloadIconParams { icon_id := some 123, format := some "svg", png_size := some 256 }) =
      none := by
  have h := downloadIcon_png_size_params
    { icon_id := some 123, format := some "png", png_size := some 256 }
    { icon_id := some 123, format := some "svg", png_size := some 256 }
    rfl rfl (Or.inr rfl)
  exact h

/-- C6: when the upstream payload says COMPLETED with an empty or
absent generated list, the getMysticTask text ends in the
completed-with-no-images phrase; when the status is anything else and
no urls are present it ends in the in-progress phrase; and the two
phrases are distinct. -/
theorem getMysticTask_completed_empty_distinct (d : AITaskData)
    (hgen : d.generated = none ∨ d.generated = some []) :
    (d.status = "COMPLETED" →
      ∃ p, formatMysticTask d = p ++ mysticCompletedNoImages) ∧
    (d.status ≠ "COMPLETED" →
      ∃ p, formatMysticTask d = p ++ mysticInProgress) ∧
    mysticCompletedNoImages ≠ mysticInProgress := by
  have hurls : hasUrls d.generated = false := by
    rcases hgen with h | h <;> simp [h, hasUrls]
  refine ⟨?_, ?_, by decide⟩
  · intro hst
    simp only [formatMysticTask, hurls, Bool.false_eq_true, if_false, hst, if_pos rfl]
    exact ⟨_, rfl⟩
  · intro hst
    simp only [formatMysticTask, hurls, Bool.false_eq_true, if_false, if_neg hst]
    exact ⟨_, rfl⟩

/-- Closed instance of C6: a COMPLETED task with an empty generated
list and an IN_PROGRESS task with no generated list get the two
distinct phrases. -/
theorem getMysticTask_completed_empty_distinct_witness :
    (∃ p, formatMysticTask { task_id := "t1", status := "COMPLETED", generated := some [] } =
        p ++ mysticCompletedNoImages) ∧
    (∃ p, formatMysticTask { task_id := "t1", status := "IN_PROGRESS" } =
        p ++ mysticInProgress) ∧
    mysticCompletedNoImages ≠ mysticInProgress := by
  refine ⟨?_, ?_, ?_⟩
  · exact (getMysticTask_completed_empty_distinct
      { task_id := "t1", status := "COMPLETED", generated := some [] } (Or.inr rfl)).1 rfl
  · exact (getMysticTask_completed_empty_distinct
      { task_id := "t1", status := "IN_PROGRESS" } (Or.inl rfl)).2.1 (by decide)
  · exact (getMysticTask_completed_empty_distinct
      { task_id := "t1", status := "COMPLETED", generated := some [] } (Or.inr rfl)).2.2

/-- C7: remove_background always sends its payload as the url-encoded
form string image_url=encodeURIComponent(url) under the
application/x-www-form-urlencoded content type (a form body, not a
JSON body), and a successful response is rendered into the text that
surfaces exactly the four url fields original, high_resolution,
preview and url. -/
theorem removeBackground_form_encoded (cfg : ProcessConfig) (a : RemoveBackgroundArgs)
    (u : String) (r : FreepikRemoveBackgroundResponse) (hu : a.image_url = some u) :
    (removeBackgroundRequest cfg a).body =
      RequestBody.form ("image_url=" ++ encodeURIComponent u) ∧
    (∀ j, (removeBackgroundRequest cfg a).body ≠ RequestBody.iconGen j) ∧
    ("Content-Type", "application/x-www-form-urlencoded") ∈
      (removeBackgroundRequest cfg a).headers ∧
    removeBackground cfg (fun _ => Except.ok (UpstreamData.removeBg r)) a =
      Except.ok (textResult
        ("**Background Removed Successfully**\n\n- **Original**: " ++ r.original ++
         "\n- **High Resolution**: " ++ r.high_resolution ++
         "\n- **Preview**: " ++ r.preview ++
         "\n- **Download URL**: " ++ r.url ++
         "\n\n*Note: URLs are temporary and valid for only 5 minutes.*")) := by
  refine ⟨?_, ?_, ?_, ?_⟩
  · simp [removeBackgroundRequest, jsShow, hu]
  · intro j
    simp [removeBackgroundRequest]
  · simp [removeBackgroundRequest]
  · rfl

/-- Closed instance of C7: a url with reserved characters is
percent-encoded into the form body, and a concrete response maps to
the four-field text. -/
theorem removeBackground_form_encoded_witness :
    (removeBackgroundRequest cfg0 { image_url := some "https://example.com/my image.png" }).body =
      RequestBody.form "image_url=https%3A%2F%2Fexample.com%2Fmy%20image.png" ∧
    removeBackground cfg0
        (fun _ => Except.ok (UpstreamData.removeBg
          { original := "o1", high_resolution := "h1", preview := "p1", url := "u1" }))
        { image_url := some "https://example.com/my image.png" } =
      Except.ok (textResult
        ("**Background Removed Successfully**\n\n- **Original**: o1" ++
         "\n- **High Resolution**: h1\n- **Preview**: p1\n- **Download URL**: u1" ++
         "\n\n*Note: URLs are temporary and valid for only 5 minutes.*")) := by
  have h := removeBackground_form_encoded cfg0
    { image_url := some "https://example.com/my image.png" }
    "https://example.com/my image.png"
    { original := "o1", high_resolution := "h1", preview := "p1", url := "u1" } rfl
  refine ⟨?_, ?_⟩
  · rw [h.1]
    decide
  · rw [h.2.2.2]
    rfl

/-- C8 counterexample: render_generated_icon declares format in its
required array, yet its handler does not treat format as mandatory — a
call without format builds exactly the request of a call with the
substituted default "png", refuting the required-iff-mandatory claim at
this concrete tool. -/
theorem renderGeneratedIcon_required_mismatch_cex :
    ("format" ∈ renderGeneratedIconRequired ∧
      (∃ t ∈ toolCatalog, t.name = "render_generated_icon" ∧
        t.required = renderGeneratedIconRequired)) ∧
    ¬ renderFormatNotDefaulted := by
  refine ⟨by decide, ?_⟩
  intro hmand
  exact hmand { task_id := some "t" } rfl (by decide)

/-- C8 amended: the required arrays do not all match the handlers; in
particular render_generated_icon lists format as required while its
handler substitutes the default "png" for an absent format, behaving
identically — same request, same reply — to a call that supplies
"png". -/
theorem renderGeneratedIcon_format_defaulted (cfg : ProcessConfig) (http : HttpOracle)
    (a : RenderGeneratedIconArgs) (h : a.format = none) :
    "format" ∈ renderGeneratedIconRequired ∧
    renderGeneratedIcon cfg http a =
      renderGeneratedIcon cfg http { a with format := some "png" } := by
  refine ⟨by decide, ?_⟩
  have hreq : renderGeneratedIconRequest cfg a =
      renderGeneratedIconRequest cfg { a with format := some "png" } := by
    simp [renderGeneratedIconRequest, h]
  have hrender : renderGeneratedIconRender a =
      renderGeneratedIconRender { a with format := some "png" } := by
    funext d
    cases d <;> simp [renderGeneratedIconRender, formatRenderGeneratedIcon, h]
  unfold renderGeneratedIcon
  rw [hreq, hrender]

/-- Closed instance of the amended C8 at a concrete call. -/
theorem renderGeneratedIcon_format_defaulted_witness :
    "format" ∈ renderGeneratedIconRequired ∧
    renderGeneratedIcon cfg0 httpRefused { task_id := some "t" } =
      renderGeneratedIcon cfg0 httpRefused { task_id := some "t", format := some "png" } :=
  renderGeneratedIcon_format_defaulted cfg0 httpRefused { task_id := some "t" } rfl

/-- C9 at the failing input: guidance_scale 0 is within the declared
0..10 schema range, yet the truthiness guard of the generate_icon handler
drops it from the JSON body, while the caller value num_inference_steps 30
is carried; so a valid caller-supplied value is not always the value in
the upstream request. -/
theorem generateIcon_drops_zero_guidance_scale :
    generateIconGuidanceScaleMin ≤ 0 ∧ (0 : Int) ≤ generateIconGuidanceScaleMax ∧
    (generateIconBody generateIconArgs0).guidance_scale = none ∧
    (generateIconBody generateIconArgs0).num_inference_steps = some 30 := by
  refine ⟨by decide, by decide, by decide, by decide⟩

/-- C10: download_resource never sends image_size when the resolved
value is "original" (caller-supplied or defaulted), sends it exactly
when the resolved value is small, medium or large, and the reply text
always reports the resolved image_size, "original" included. -/
theorem downloadResource_image_size (a : DownloadResourceArgs) (d : DownloadData) :
    (a.image_size.getD "original" = "original" →
      queryLookup "image_size" (downloadResourceParams a) = none) ∧
    (a.image_size.getD "original" = "small" ∨ a.image_size.getD "original" = "medium" ∨
        a.image_size.getD "original" = "large" →
      queryLookup "image_size" (downloadResourceParams a) =
        some (a.image_size.getD "original")) ∧
    (∃ pre post, formatDownloadResource a d =
      pre ++ ("\n- **Image Size**: " ++ a.image_size.getD "original") ++ post) := by
  refine ⟨?_, ?_, ?_⟩
  · intro h
    simp [downloadResourceParams, h, queryLookup]
  · intro h
    rcases h with h | h | h <;> simp [downloadResourceParams, h, queryLookup]
  · refine ⟨"**Resource Download Ready**\n\n- **Filename**: " ++ d.filename,
      "\n- **Download URL**: " ++ d.url ++
        "\n\n*Note: Download URL is temporary and should be used immediately.*", ?_⟩
    simp [formatDownloadResource, string_append_assoc]

/-- Closed instance of C10: a defaulted call omits image_size yet
reports "original", and an explicit "medium" is forwarded. -/
theorem downloadResource_image_size_witness :
    queryLookup "image_size" (downloadResourceParams { resource_id := some "r1" }) = none ∧
    (∃ pre post,
      formatDownloadResource { resource_id := some "r1" } { filename := "f", url := "u" } =
        pre ++ ("\n- **Image Size**: " ++ "original") ++ post) ∧
    queryLookup "image_size"
        (downloadResourceParams { resource_id := some "r1", image_size := some "medium" }) =
      some "medium" := by
  refine ⟨?_, ?_, ?_⟩
  · exact (downloadResource_image_size { resource_id := some "r1" }
      { filename := "f", url := "u" }).1 rfl
  · exact (downloadResource_image_size { resource_id := some "r1" }
      { filename := "f", url := "u" }).2.2
  · exact (downloadResource_image_size { resource_id := some "r1", image_size := some "medium" }
      { filename := "f", url := "u" }).2.1 (Or.inr (Or.inl rfl))
